import Mathlib

/-!
Shallow embedding of the terra-contracts scores module
(`src/contract.rs`, `src/msg.rs`) and proofs of its specified properties.

Addresses (`cosmwasm_std::Addr`) are modelled as strings; `u32` scores as
`Nat` (the contract only stores and reloads them, no arithmetic is ever
performed, so no overflow can occur). Persistent storage is the explicit
`Storage` record: the cw2 metadata item, the `STATE` singleton item and the
`SCORES` keyed map. Host-level storage-write faults are modelled by a
`WriteFaults` record saying which underlying store call fails during the
invocation; an entry point returns `Except.error` exactly when the source
propagates the failure, and the `Except.error` result carries no state,
matching the host's all-or-nothing commit per call.
-/

namespace TerraContracts

/-- Authenticated account identity (`cosmwasm_std::Addr`). -/
abbrev Addr := String

/-- Storage-layer errors relevant to this module: a missing item on `load`
(`StdError::NotFound`) and a faulting write. -/
inductive StdError where
  | NotFound
  | WriteFail
  deriving DecidableEq, Repr

/-- `ContractError` from `src/error.rs` (file not under src/; its two
variants are visible from `contract.rs` and the spec's error taxonomy):
a wrapped storage error and `Unauthorized`. -/
inductive ContractError where
  | Std (e : StdError)
  | Unauthorized
  deriving DecidableEq, Repr

/-- The `SCORES` keyed storage region: user-identity string to score. -/
abbrev ScoreMap := List (String × Nat)

/-- Lookup by exact key equality (`Map::may_load`). -/
def ScoreMap.get : ScoreMap → String → Option Nat
  | [], _ => none
  | (k, v) :: rest, u => if k = u then some v else ScoreMap.get rest u

/-- Write one key (`Map::save` / the write performed by `Map::update`):
overwrites the entry if present, appends it otherwise. -/
def ScoreMap.set : ScoreMap → String → Nat → ScoreMap
  | [], u, s => [(u, s)]
  | (k, v) :: rest, u, s =>
      if k = u then (u, s) :: rest else (k, v) :: ScoreMap.set rest u s

/-- `State` from `src/state.rs` (file not under src/; `contract.rs` shows
its single field `owner`, set at instantiation). -/
structure State where
  owner : Addr
  deriving DecidableEq, Repr

/-- The module's whole persistent storage: the cw2 contract-info item, the
`STATE` singleton and the `SCORES` map. -/
structure Storage where
  contract_info : Option (String × String)
  state : Option State
  scores : ScoreMap
  deriving DecidableEq, Repr

/-- Which underlying host storage writes fault during one invocation:
the cw2 metadata write, the `STATE.save` write, the `SCORES` write. -/
structure WriteFaults where
  metaFail : Bool
  stateFail : Bool
  scoreFail : Bool
  deriving DecidableEq, Repr

/-- The fault-free host. -/
def noFaults : WriteFaults := ⟨false, false, false⟩

/-- A `cosmwasm_std::Response`: attributes plus optional data payload. -/
structure Response where
  attributes : List (String × String)
  data : Option String
  deriving DecidableEq, Repr

/-- `Response::default()`. -/
def Response.default : Response := ⟨[], none⟩

/-- `Response::new().add_attribute("method", "try_update_score")`. -/
def Response.new_update_score : Response :=
  ⟨[("method", "try_update_score")], none⟩

/-- `CONTRACT_NAME` from `contract.rs`. -/
def CONTRACT_NAME : String := "crates.io:example-terra-contract"

/-- Modelled from the spec: `CONTRACT_VERSION` is `env!("CARGO_PKG_VERSION")`
and Cargo.toml is not under src/; only the presence of the metadata entry
matters to the properties, never this value. -/
def CONTRACT_VERSION : String := "0.1.0"

/-- `cw2::set_contract_version`: writes the contract-info metadata item;
its result is propagated with `?` in `instantiate`. -/
def set_contract_version (fl : WriteFaults) (store : Storage) :
    Except StdError Storage :=
  if fl.metaFail then .error .WriteFail
  else .ok { store with contract_info := some (CONTRACT_NAME, CONTRACT_VERSION) }

/-- `instantiate` from `contract.rs`: records the caller as owner, after
persisting the cw2 version metadata; both writes propagate failure. -/
def instantiate (fl : WriteFaults) (store : Storage) (sender : Addr) :
    Except ContractError (Storage × Response) :=
  match set_contract_version fl store with
  | .error e => .error (.Std e)
  | .ok store1 =>
      if fl.stateFail then .error (.Std .WriteFail)
      else .ok ({ store1 with state := some { owner := sender } }, Response.default)

/-- `try_update_score` from `contract.rs`, embedded faithfully:
`STATE.load` fails with `NotFound` when the owner record is absent; a
non-owner caller gets `Unauthorized`; then the current score is loaded with
default 0. On the zero/absent path the source calls `SCORES.save` and
DISCARDS its `StdResult` (no `?`), so a faulting write is ignored and the
call still succeeds with nothing committed. On the nonzero path the source
calls `SCORES.update` with a closure returning the OLD stored value
(`Ok(score.unwrap_or_default())` over the loaded option), and propagates a
write failure with `?`. -/
def try_update_score (fl : WriteFaults) (store : Storage)
    (sender : Addr) (user : Addr) (score : Nat) :
    Except ContractError (Storage × Response) :=
  match store.state with
  | none => .error (.Std .NotFound)
  | some state =>
      if sender ≠ state.owner then .error .Unauthorized
      else
        let current_score := (store.scores.get user).getD 0
        if current_score = 0 then
          let store1 :=
            if fl.scoreFail then store
            else { store with scores := store.scores.set user score }
          .ok (store1, Response.new_update_score)
        else
          if fl.scoreFail then .error (.Std .WriteFail)
          else .ok ({ store with scores := store.scores.set user current_score },
                    Response.new_update_score)

/-- `ExecuteMsg` from `src/msg.rs`. -/
inductive ExecuteMsg where
  | UpdateScore (user : Addr) (score : Nat)
  deriving DecidableEq, Repr

/-- `execute` from `contract.rs`: dispatch on the message kind. -/
def execute (fl : WriteFaults) (store : Storage) (sender : Addr) :
    ExecuteMsg → Except ContractError (Storage × Response)
  | .UpdateScore user score => try_update_score fl store sender user score

/-- `OwnerResponse` from `src/msg.rs`. -/
structure OwnerResponse where
  owner : Addr
  deriving DecidableEq, Repr

/-- `ScoreResponse` from `src/msg.rs`. -/
structure ScoreResponse where
  score : Nat
  deriving DecidableEq, Repr

/-- `query_owner` from `contract.rs`: `STATE.load` then return the owner. -/
def query_owner (store : Storage) : Except StdError OwnerResponse :=
  match store.state with
  | none => .error .NotFound
  | some state => .ok { owner := state.owner }

/-- `query_score` from `contract.rs`: `may_load` with default 0. -/
def query_score (store : Storage) (user : String) : Except StdError ScoreResponse :=
  .ok { score := (store.scores.get user).getD 0 }

/-- One externally-invocable call after instantiation: an execute message
from some sender under some host fault pattern, or a read-only query. -/
inductive Call where
  | exec (fl : WriteFaults) (sender : Addr) (msg : ExecuteMsg)
  | qOwner
  | qScore (user : String)
  deriving DecidableEq, Repr

/-- The storage after one call: an execute's result is committed on success
and rolled back entirely on error (host all-or-nothing semantics); queries
never mutate. -/
def stepCall (store : Storage) : Call → Storage
  | .exec fl sender msg =>
      match execute fl store sender msg with
      | .ok (store1, _) => store1
      | .error _ => store
  | .qOwner => store
  | .qScore _ => store

/-- The storage after a sequence of calls. -/
def runCalls (store : Storage) : List Call → Storage
  | [] => store
  | c :: cs => runCalls (stepCall store c) cs

/-- Empty storage, before instantiation. -/
def init0 : Storage := ⟨none, none, []⟩

end TerraContracts

namespace TerraContracts

/-! ## Helper lemmas -/

/-- Reading back after writing one key of the score map. -/
theorem ScoreMap.get_set (m : ScoreMap) (u : String) (v : Nat) (k : String) :
    (m.set u v).get k = if u = k then some v else m.get k := by
  induction m with
  | nil => by_cases h : u = k <;> simp [ScoreMap.set, ScoreMap.get, h]
  | cons hd tl ih =>
    obtain ⟨k1, v1⟩ := hd
    by_cases h1 : k1 = u
    · subst h1
      by_cases h2 : k1 = k <;> simp [ScoreMap.set, ScoreMap.get, h2]
    · by_cases h2 : k1 = k
      · subst h2
        have : ¬ u = k1 := fun he => h1 he.symm
        simp [ScoreMap.set, ScoreMap.get, h1, this]
      · simp [ScoreMap.set, ScoreMap.get, h1, h2, ih]

/-- Characterization of every successful `try_update_score` run: the caller
was the stored owner, the response is the fixed method attribute, the owner
item and the metadata item are untouched, and the score map is either
unchanged (the dropped faulting save), or written at `user` with the new
score (zero/absent path), or written at `user` with the old stored value
(nonzero path of the source). -/
theorem update_ok_spec (fl : WriteFaults) (store st' : Storage) (r : Response)
    (sender user : Addr) (score : Nat)
    (h : try_update_score fl store sender user score = .ok (st', r)) :
    store.state = some { owner := sender } ∧
    r = Response.new_update_score ∧
    st'.state = store.state ∧
    st'.contract_info = store.contract_info ∧
    (st'.scores = store.scores ∨
      st'.scores = store.scores.set user score ∨
      st'.scores = store.scores.set user ((store.scores.get user).getD 0)) := by
  unfold try_update_score at h
  split at h
  · exact Except.noConfusion h
  · rename_i state heq
    obtain ⟨o⟩ := state
    split at h
    · exact Except.noConfusion h
    · rename_i hown
      have hso : sender = o := not_ne_iff.mp hown
      subst hso
      by_cases hz : (store.scores.get user).getD 0 = 0
      · by_cases hf : fl.scoreFail = true
        · simp only [hz, hf, if_true, ite_true] at h
          injection h with h1
          injection h1 with h2 h3
          subst h2; subst h3
          exact ⟨heq, rfl, rfl, rfl, Or.inl rfl⟩
        · simp only [hz, hf, if_true, ite_true, if_false, ite_false] at h
          injection h with h1
          injection h1 with h2 h3
          subst h2; subst h3
          exact ⟨heq, rfl, rfl, rfl, Or.inr (Or.inl rfl)⟩
      · by_cases hf : fl.scoreFail = true
        · simp only [hz, hf, if_true, ite_true, if_false, ite_false] at h
          exact Except.noConfusion h
        · simp only [hz, hf, if_false, ite_false] at h
          injection h with h1
          injection h1 with h2 h3
          subst h2; subst h3
          exact ⟨heq, rfl, rfl, rfl, Or.inr (Or.inr rfl)⟩

/-- Every successful update leaves every key other than the target key of
the score map unchanged. -/
theorem update_ok_frame (fl : WriteFaults) (store st' : Storage) (r : Response)
    (sender user : Addr) (score : Nat)
    (h : try_update_score fl store sender user score = .ok (st', r)) :
    ∀ k, k ≠ user → st'.scores.get k = store.scores.get k := by
  intro k hk
  have hne : ¬ (user = k) := fun he => hk he.symm
  rcases (update_ok_spec fl store st' r sender user score h).2.2.2.2 with h1 | h1 | h1
  · rw [h1]
  · rw [h1, ScoreMap.get_set, if_neg hne]
  · rw [h1, ScoreMap.get_set, if_neg hne]

/-- No call ever changes the `STATE` item. -/
theorem stepCall_preserves_state (store : Storage) (c : Call) :
    (stepCall store c).state = store.state := by
  cases c with
  | exec fl sender msg =>
    cases msg with
    | UpdateScore user score =>
      simp only [stepCall, execute]
      cases hres : try_update_score fl store sender user score with
      | ok p =>
        obtain ⟨store1, r⟩ := p
        exact (update_ok_spec fl store store1 r sender user score hres).2.2.1
      | error e => rfl
  | qOwner => rfl
  | qScore user => rfl

/-- The `STATE` item survives any sequence of calls. -/
theorem runCalls_preserves_state (cs : List Call) (store : Storage) :
    (runCalls store cs).state = store.state := by
  induction cs generalizing store with
  | nil => rfl
  | cons c cs ih => rw [runCalls, ih, stepCall_preserves_state]

/-- A successful instantiation stores the caller as owner and the cw2
metadata entry. -/
theorem instantiate_ok_spec (fl : WriteFaults) (store st' : Storage) (r : Response)
    (sender : Addr) (h : instantiate fl store sender = .ok (st', r)) :
    st'.state = some { owner := sender } ∧
    st'.contract_info = some (CONTRACT_NAME, CONTRACT_VERSION) ∧
    r = Response.default := by
  unfold instantiate set_contract_version at h
  split at h
  · exact Except.noConfusion h
  · rename_i store1 heq
    split at h
    · exact Except.noConfusion h
    · injection h with h1
      injection h1 with h2 h3
      subst h2; subst h3
      split at heq
      · exact Except.noConfusion heq
      · injection heq with h4
        subst h4
        exact ⟨rfl, rfl, rfl⟩

end TerraContracts

namespace TerraContracts

/-! ## Claim theorems -/

/-- C1: evaluation of the code at the failing input. After instantiation by
"creator" and a first authorized UpdateScore("u", 1), a second authorized
UpdateScore("u", 2) leaves the stored score at 1: the source's nonzero path
writes back the old value, so GetScore("u") returns 1, not 2, refuting the
claim that the new score value is stored on every authorized update. -/
theorem update_overwrite_bug_trace :
    instantiate noFaults init0 "creator" =
      .ok (⟨some (CONTRACT_NAME, CONTRACT_VERSION), some { owner := "creator" }, []⟩,
           Response.default) ∧
    try_update_score noFaults
        ⟨some (CONTRACT_NAME, CONTRACT_VERSION), some { owner := "creator" }, []⟩
        "creator" "u" 1 =
      .ok (⟨some (CONTRACT_NAME, CONTRACT_VERSION), some { owner := "creator" }, [("u", 1)]⟩,
           Response.new_update_score) ∧
    try_update_score noFaults
        ⟨some (CONTRACT_NAME, CONTRACT_VERSION), some { owner := "creator" }, [("u", 1)]⟩
        "creator" "u" 2 =
      .ok (⟨some (CONTRACT_NAME, CONTRACT_VERSION), some { owner := "creator" }, [("u", 1)]⟩,
           Response.new_update_score) ∧
    query_score
        ⟨some (CONTRACT_NAME, CONTRACT_VERSION), some { owner := "creator" }, [("u", 1)]⟩
        "u" = .ok { score := 1 } :=
  ⟨rfl, rfl, rfl, rfl⟩

/-- C2: authorization gate. A successful UpdateScore implies the caller is
the stored owner; and whenever the caller differs from the stored owner the
call returns Unauthorized and the committed score mapping is unchanged at
every key (the whole map is equal). -/
theorem update_authorization_gate (fl : WriteFaults) (store : Storage)
    (sender user : Addr) (score : Nat) :
    (∀ st' r, try_update_score fl store sender user score = .ok (st', r) →
        store.state = some { owner := sender }) ∧
    ∀ o, store.state = some { owner := o } → sender ≠ o →
      try_update_score fl store sender user score = .error .Unauthorized ∧
      (stepCall store (.exec fl sender (.UpdateScore user score))).scores
        = store.scores := by
  constructor
  · intro st' r hok
    exact (update_ok_spec fl store st' r sender user score hok).1
  · intro o ho hne
    have herr : try_update_score fl store sender user score = .error .Unauthorized := by
      unfold try_update_score
      rw [ho]
      simp [hne]
    refine ⟨herr, ?_⟩
    simp only [stepCall, execute, herr]

/-- C2 witness: the non-owner "mallory" is rejected and the map stays empty. -/
theorem update_authorization_gate_witness :
    try_update_score noFaults ⟨none, some { owner := "creator" }, []⟩ "mallory" "u" 5
        = .error .Unauthorized ∧
    (stepCall (⟨none, some { owner := "creator" }, []⟩ : Storage)
        (.exec noFaults "mallory" (.UpdateScore "u" 5))).scores = [] :=
  (update_authorization_gate noFaults ⟨none, some { owner := "creator" }, []⟩
      "mallory" "u" 5).2 "creator" rfl (by decide)

/-- C3: ownership persistence. After a successful instantiation by A, the
owner query returns A after any sequence of execute and query calls: no
operation changes the stored owner record. -/
theorem owner_persistent (fl : WriteFaults) (store0 store1 : Storage) (r : Response)
    (A : Addr) (cs : List Call)
    (h : instantiate fl store0 A = .ok (store1, r)) :
    query_owner (runCalls store1 cs) = .ok { owner := A } ∧
    (runCalls store1 cs).state = store1.state := by
  have h1 : store1.state = some { owner := A } :=
    (instantiate_ok_spec fl store0 store1 r A h).1
  have h2 : (runCalls store1 cs).state = store1.state :=
    runCalls_preserves_state cs store1
  refine ⟨?_, h2⟩
  unfold query_owner
  rw [h2, h1]

/-- C3 witness: instantiate by "creator", then an authorized update and an
owner query; the owner is still "creator". -/
theorem owner_persistent_witness :
    query_owner (runCalls
        ⟨some (CONTRACT_NAME, CONTRACT_VERSION), some { owner := "creator" }, []⟩
        [Call.exec noFaults "creator" (.UpdateScore "u" 3), Call.qOwner])
      = .ok { owner := "creator" } :=
  (owner_persistent noFaults init0
      ⟨some (CONTRACT_NAME, CONTRACT_VERSION), some { owner := "creator" }, []⟩
      Response.default "creator"
      [Call.exec noFaults "creator" (.UpdateScore "u" 3), Call.qOwner] rfl).1

/-- C4: default read. A user with no stored entry reads as score 0 without
failing, and writing an explicit 0 entry for that user is observationally
indistinguishable from the missing entry under the score query. -/
theorem score_default_zero (store : Storage) (user : String)
    (h : store.scores.get user = none) :
    query_score store user = .ok { score := 0 } ∧
    query_score { store with scores := store.scores.set user 0 } user
      = query_score store user := by
  constructor
  · unfold query_score
    rw [h]
    rfl
  · unfold query_score
    rw [ScoreMap.get_set, if_pos rfl, h]
    rfl

/-- C4 witness: user "b" has no entry; the query returns 0, and an explicit
zero entry reads the same. -/
theorem score_default_zero_witness :
    query_score (⟨none, none, [("a", 7)]⟩ : Storage) "b" = .ok { score := 0 } ∧
    query_score (⟨none, none, ScoreMap.set [("a", 7)] "b" 0⟩ : Storage) "b"
      = query_score (⟨none, none, [("a", 7)]⟩ : Storage) "b" :=
  score_default_zero ⟨none, none, [("a", 7)]⟩ "b" (by decide)

/-- C5: isolation across keys. A successful UpdateScore targeting u1 never
changes the score query result for any u2 distinct from u1; the score map
is unchanged at every key other than u1. -/
theorem update_isolation (fl : WriteFaults) (store st' : Storage) (r : Response)
    (sender u1 : Addr) (s : Nat) (u2 : String) (hne : u2 ≠ u1)
    (h : try_update_score fl store sender u1 s = .ok (st', r)) :
    query_score st' u2 = query_score store u2 ∧
    ∀ k, k ≠ u1 → st'.scores.get k = store.scores.get k := by
  have hframe := update_ok_frame fl store st' r sender u1 s h
  refine ⟨?_, hframe⟩
  unfold query_score
  rw [hframe u2 hne]

/-- C5 witness: the owner updates "a"; the query for "b" is unchanged. -/
theorem update_isolation_witness :
    query_score (⟨none, some { owner := "c" }, [("b", 7), ("a", 3)]⟩ : Storage) "b"
      = query_score (⟨none, some { owner := "c" }, [("b", 7)]⟩ : Storage) "b" :=
  (update_isolation noFaults ⟨none, some { owner := "c" }, [("b", 7)]⟩
      ⟨none, some { owner := "c" }, [("b", 7), ("a", 3)]⟩ Response.new_update_score
      "c" "a" 3 "b" (by decide) rfl).1

/-- C6: evaluation of the code at the failing input. With a faulting score
write, an authorized UpdateScore for a user with no prior entry still
returns a success response while committing nothing: the source discards
the result of the save call on the zero/absent path, refuting the claim
that every storage-write failure is reported to the caller. -/
theorem save_error_swallowed :
    try_update_score ⟨false, false, true⟩
        ⟨some (CONTRACT_NAME, CONTRACT_VERSION), some { owner := "creator" }, []⟩
        "creator" "u" 5
      = .ok (⟨some (CONTRACT_NAME, CONTRACT_VERSION), some { owner := "creator" }, []⟩,
             Response.new_update_score) := rfl

/-- C7: uninitialized failure. When the owner record is absent UpdateScore
fails with the storage-load NotFound condition and commits no mutation, and
the owner query fails the same way. -/
theorem uninitialized_fails (fl : WriteFaults) (store : Storage)
    (h : store.state = none) (sender user : Addr) (score : Nat) :
    try_update_score fl store sender user score = .error (.Std .NotFound) ∧
    query_owner store = .error .NotFound ∧
    stepCall store (.exec fl sender (.UpdateScore user score)) = store := by
  have h1 : try_update_score fl store sender user score = .error (.Std .NotFound) := by
    unfold try_update_score
    rw [h]
  refine ⟨h1, ?_, ?_⟩
  · unfold query_owner
    rw [h]
  · simp only [stepCall, execute, h1]

/-- C7 witness: on the empty pre-instantiation storage both operations fail
with NotFound and nothing changes. -/
theorem uninitialized_fails_witness :
    try_update_score noFaults init0 "creator" "u" 7 = .error (.Std .NotFound) ∧
    query_owner init0 = .error .NotFound ∧
    stepCall init0 (.exec noFaults "creator" (.UpdateScore "u" 7)) = init0 :=
  uninitialized_fails noFaults init0 rfl "creator" "u" 7

/-- C8: success response shape. Every successful UpdateScore returns the
response with exactly the one attribute "method" = "try_update_score" and
no data payload. -/
theorem update_success_response (fl : WriteFaults) (store st' : Storage) (r : Response)
    (sender user : Addr) (score : Nat)
    (h : try_update_score fl store sender user score = .ok (st', r)) :
    r = Response.new_update_score ∧
    r.attributes = [("method", "try_update_score")] ∧ r.data = none := by
  have hr := (update_ok_spec fl store st' r sender user score h).2.1
  subst hr
  exact ⟨rfl, rfl, rfl⟩

/-- C8 witness: a concrete successful update returns exactly that response. -/
theorem update_success_response_witness :
    Response.new_update_score = Response.new_update_score ∧
    Response.new_update_score.attributes = [("method", "try_update_score")] ∧
    Response.new_update_score.data = none :=
  update_success_response noFaults ⟨none, some { owner := "c" }, []⟩
    ⟨none, some { owner := "c" }, [("u", 4)]⟩ Response.new_update_score "c" "u" 4 rfl

/-- C9: instantiate metadata. A successful instantiation stores the cw2
contract name/version metadata entry in addition to the owner record, and
instantiation fails when the metadata write fails. -/
theorem instantiate_metadata (fl : WriteFaults) (store st' : Storage) (r : Response)
    (sender : Addr) (h : instantiate fl store sender = .ok (st', r)) :
    st'.contract_info = some (CONTRACT_NAME, CONTRACT_VERSION) ∧
    st'.state = some { owner := sender } ∧
    ∀ store2 sender2, instantiate ⟨true, fl.stateFail, fl.scoreFail⟩ store2 sender2
        = .error (.Std .WriteFail) := by
  obtain ⟨h1, h2, _⟩ := instantiate_ok_spec fl store st' r sender h
  refine ⟨h2, h1, ?_⟩
  intro store2 sender2
  rfl

/-- C9 witness: instantiate by "creator" stores the metadata and the owner,
and a faulting metadata write makes instantiation fail. -/
theorem instantiate_metadata_witness :
    (⟨some (CONTRACT_NAME, CONTRACT_VERSION), some { owner := "creator" }, []⟩ : Storage).contract_info
      = some (CONTRACT_NAME, CONTRACT_VERSION) ∧
    (⟨some (CONTRACT_NAME, CONTRACT_VERSION), some { owner := "creator" }, []⟩ : Storage).state
      = some { owner := "creator" } ∧
    instantiate ⟨true, false, false⟩ init0 "x" = .error (.Std .WriteFail) :=
  ⟨(instantiate_metadata noFaults init0
      ⟨some (CONTRACT_NAME, CONTRACT_VERSION), some { owner := "creator" }, []⟩
      Response.default "creator" rfl).1,
   (instantiate_metadata noFaults init0
      ⟨some (CONTRACT_NAME, CONTRACT_VERSION), some { owner := "creator" }, []⟩
      Response.default "creator" rfl).2.1,
   (instantiate_metadata noFaults init0
      ⟨some (CONTRACT_NAME, CONTRACT_VERSION), some { owner := "creator" }, []⟩
      Response.default "creator" rfl).2.2 init0 "x"⟩

/-- C10: zero/absent path. For a user whose stored score is absent or 0, an
authorized UpdateScore with a fault-free store persists exactly the new
score value under that user's key; the read-modify-write branch is not
taken. -/
theorem update_zero_path (store : Storage) (sender user : Addr) (score : Nat)
    (ho : store.state = some { owner := sender })
    (hz : (store.scores.get user).getD 0 = 0) :
    try_update_score noFaults store sender user score =
      .ok ({ store with scores := store.scores.set user score },
           Response.new_update_score) := by
  unfold try_update_score
  rw [ho]
  simp [hz, noFaults]

/-- C10 witness: user "u" is absent; the owner's update stores exactly 6. -/
theorem update_zero_path_witness :
    try_update_score noFaults ⟨none, some { owner := "c" }, [("a", 9)]⟩ "c" "u" 6 =
      .ok (⟨none, some { owner := "c" }, ScoreMap.set [("a", 9)] "u" 6⟩,
           Response.new_update_score) :=
  update_zero_path ⟨none, some { owner := "c" }, [("a", 9)]⟩ "c" "u" 6 rfl (by decide)

end TerraContracts
